import Mathlib

/-!
Verification development for the GreenGrid weather-driven energy simulation
engine (`src/utils/weatherBasedEnergyData.ts`).  The TypeScript source is
shallowly embedded below: pure numeric code is translated to functions over a
linear ordered field (instantiated at `ℚ` for the exactly-rational battery
arithmetic and at `ℝ` where the source calls `Math.sin` / fractional
`Math.pow`), the mutable `batteryLevel` field of the simulator class becomes
explicit state passing, the random draws made by `Math.random()` become
explicit parameters, and the `try`/`catch` fallback structure of the tick is
modelled with `Except`-valued inputs.
-/

namespace GreenGrid

/-- The `WeatherData['condition']` union type of the source. -/
inductive Condition
  | sunny
  | partly_cloudy
  | cloudy
  | dusty
  | rainy
  | clear_night
  deriving DecidableEq

/-- The `EnergyPrediction['recommendation']` union type of the source. -/
inductive Recommendation
  | charge_now
  | discharge_now
  | maintain
  | prepare_for_peak
  deriving DecidableEq

/-- The four season buckets of `rajashtanSeasonalFactors`. -/
inductive Season
  | winter
  | summer
  | monsoon
  | postMonsoon
  deriving DecidableEq

section Battery

variable {K : Type*} [LinearOrderedField K]

/-- Embeds `calculateBatteryLevel` (source lines 565–605).  The source mutates
`this.batteryLevel` and returns the clamped value; here the first component of
the result is the new stored field and the second is the returned value
`Math.max(5, Math.min(100, batteryLevel))`.  The rates are the source's
`chargeRate = 2` and `dischargeRate = 1.5`. -/
def calculateBatteryLevel (energyBalance optimalLevel : K)
    (recommendation : Recommendation) (batteryLevel : K) : K × K :=
  let chargeRate : K := 2
  let dischargeRate : K := 3 / 2
  let newLevel : K :=
    match recommendation with
    | .charge_now =>
        if energyBalance > 0 ∧ batteryLevel < optimalLevel then
          batteryLevel + min chargeRate (energyBalance * (1 / 10))
        else batteryLevel
    | .discharge_now =>
        if energyBalance < 0 ∧ batteryLevel > 20 then
          batteryLevel - min dischargeRate (|energyBalance| * (5 / 100))
        else batteryLevel
    | .prepare_for_peak =>
        if energyBalance > 10 ∧ batteryLevel < 90 then
          batteryLevel + min (chargeRate * (3 / 2)) (energyBalance * (8 / 100))
        else batteryLevel
    | .maintain =>
        if energyBalance > 20 ∧ batteryLevel < 80 then
          batteryLevel + min 1 (energyBalance * (3 / 100))
        else if energyBalance < -20 ∧ batteryLevel > 30 then
          batteryLevel - min 1 (|energyBalance| * (2 / 100))
        else batteryLevel
  (newLevel, max 5 (min 100 newLevel))

end Battery

/-- The seed of the persistent `private batteryLevel = 60` field
(source line 563). -/
def initialBatteryLevel : ℚ := 60

/-- One battery-update step of `runBattery`: the new stored level produced by
`calculateBatteryLevel` for one `(energyBalance, optimalLevel, recommendation)`
input. -/
def batteryStep (level : ℚ) (u : ℚ × ℚ × Recommendation) : ℚ :=
  (calculateBatteryLevel u.1 u.2.1 u.2.2 level).1

/-- Runs a finite sequence of battery updates from the seed level, threading
the stored field through `calculateBatteryLevel` exactly as successive ticks
of the simulator do.  Each input is `(energyBalance, optimalLevel,
recommendation)`. -/
def runBattery (inputs : List (ℚ × ℚ × Recommendation)) : ℚ :=
  inputs.foldl batteryStep initialBatteryLevel

/-! ### Simulator configuration state and `setMode`

`setMode` (source lines 60–63) as it executes at runtime: TypeScript types
erase, so the `mode` argument is an arbitrary string.  The body stores the
argument unconditionally; `if (apiKey)` is JavaScript truthiness, false for
both `undefined` and the empty string. -/

/-- The mutable configuration of `WeatherBasedEnergySimulator`:
`private mode` and `private weatherApiKey`. -/
structure SimState where
  mode : String
  weatherApiKey : String
  deriving DecidableEq

/-- The constructor defaults: `mode = 'online'`, `apiKey = ''`. -/
def initialSimState : SimState := ⟨"online", ""⟩

/-- Embeds `setMode(mode, apiKey?)` at runtime (source lines 60–63): the mode
string is stored without any validation, and the key is overwritten only when
the optional argument is truthy. -/
def setMode (mode : String) (apiKey : Option String) (s : SimState) : SimState :=
  { mode := mode
    weatherApiKey :=
      match apiKey with
      | some k => if k = "" then s.weatherApiKey else k
      | none => s.weatherApiKey }

/-! ### Weather synthesizer

`generateRealisticWeatherData` (source lines 80–143) and its helpers.  The
calls to `Math.random()` become the fields of `SynthDraws`, each a real number
in `[0,1)`; `Math.sin` becomes `Real.sin`; `Math.round(x·10)/10` becomes
`round1`. -/

/-- `solarBoost` column of `rajashtanSeasonalFactors` (source lines 47–52). -/
def solarBoost : Season → ℝ
  | .winter => 0.9
  | .summer => 1.1
  | .monsoon => 0.6
  | .postMonsoon => 1.0

/-- `heatLoad` column of `rajashtanSeasonalFactors` (source lines 47–52). -/
def heatLoad : Season → ℝ
  | .winter => 0.3
  | .summer => 1.5
  | .monsoon => 0.8
  | .postMonsoon => 0.9

/-- `getSeasonalBaseTemperature` (source lines 145–152). -/
def getSeasonalBaseTemperature : Season → ℝ
  | .winter => 18
  | .summer => 35
  | .monsoon => 28
  | .postMonsoon => 25

/-- `getTemperatureRange` (source lines 154–161). -/
def getTemperatureRange : Season → ℝ
  | .winter => 8
  | .summer => 12
  | .monsoon => 6
  | .postMonsoon => 9

/-- `Math.round` of JavaScript: rounds to the nearest integer, halves toward
positive infinity, i.e. `⌊x + 1/2⌋`. -/
noncomputable def jsRound (x : ℝ) : ℤ := ⌊x + 1 / 2⌋

/-- `Math.round(x * 10) / 10`: round to one decimal. -/
noncomputable def round1 (x : ℝ) : ℝ := (jsRound (x * 10) : ℝ) / 10

/-- `Math.round(x * 100) / 100`: round to two decimals. -/
noncomputable def round2 (x : ℝ) : ℝ := (jsRound (x * 100) : ℝ) / 100

/-- The daily sinusoidal temperature component
`Math.sin((hour - 6) / 12 * Math.PI) * this.getTemperatureRange(season)`
(source line 86). -/
noncomputable def dailyVariation (season : Season) (hour : ℝ) : ℝ :=
  Real.sin ((hour - 6) / 12 * Real.pi) * getTemperatureRange season

/-- The deterministic part of the synthesized temperature:
`baseTemp + dailyVariation` (source lines 85–87, without the random jitter). -/
noncomputable def deterministicTemperature (season : Season) (hour : ℝ) : ℝ :=
  getSeasonalBaseTemperature season + dailyVariation season hour

/-- The full synthesized (unrounded) temperature including the jitter term
`(Math.random() - 0.5) * 3` (source line 87), with the draw `r ∈ [0,1)`
explicit. -/
noncomputable def synthTemperature (season : Season) (hour : ℝ) (r : ℝ) : ℝ :=
  deterministicTemperature season hour + (r - 0.5) * 3

/-- The season-dependent cloud-cover draw (source lines 93–103): monsoon
60–100 %, summer 0–30 %, otherwise 0–50 %, with the draw `r ∈ [0,1)`. -/
def cloudCoverOf (season : Season) (r : ℝ) : ℝ :=
  match season with
  | .monsoon => 60 + r * 40
  | .summer => r * 30
  | _ => r * 50

/-- The daytime condition choice (source lines 93–103).  In the monsoon branch
the source first picks `cloudy`/`partly_cloudy` from the cover and then
overrides with `rainy` when the second draw is below 0.3. -/
noncomputable def dayCondition (season : Season) (cloudCover rRain : ℝ) : Condition :=
  match season with
  | .monsoon =>
      if rRain < 0.3 then .rainy
      else if cloudCover > 80 then .cloudy else .partly_cloudy
  | .summer =>
      if cloudCover < 10 then .sunny
      else if cloudCover < 20 then .partly_cloudy else .dusty
  | _ =>
      if cloudCover < 15 then .sunny
      else if cloudCover < 35 then .partly_cloudy else .cloudy

/-- The final condition of a synthesized sample: the daytime draw, forced to
`clear_night` outside 06:00–19:00 (source lines 105–107). -/
noncomputable def conditionOf (season : Season) (hour : ℕ) (cloudCover rRain : ℝ) :
    Condition :=
  if hour < 6 ∨ hour > 19 then .clear_night else dayCondition season cloudCover rRain

/-- Wind-speed draw (source lines 110–112): summer 3–11 m/s, otherwise
2–7 m/s. -/
def windSpeedOf (season : Season) (r : ℝ) : ℝ :=
  match season with
  | .summer => 3 + r * 8
  | _ => 2 + r * 5

/-- Humidity draw (source lines 115–119). -/
def humidityOf (season : Season) (r : ℝ) : ℝ :=
  match season with
  | .monsoon => 70 + r * 25
  | .summer => 20 + r * 30
  | _ => 40 + r * 35

/-- UV-index formula (source lines 121–124). -/
noncomputable def uvIndexOf (condition : Condition) (hour : ℕ) : ℝ :=
  match condition with
  | .sunny => min 11 (6 + Real.sin (((hour : ℝ) - 6) / 12 * Real.pi) * 5)
  | .partly_cloudy => min 8 (4 + Real.sin (((hour : ℝ) - 6) / 12 * Real.pi) * 3)
  | _ => 2

/-- Visibility draw (source lines 126–128). -/
noncomputable def visibilityOf (condition : Condition) (r : ℝ) : ℝ :=
  match condition with
  | .dusty => 2 + r * 3
  | .rainy => 1 + r * 2
  | _ => 8 + r * 7

/-- One reduced forecast sub-sample
(`{ condition, temperature, windSpeed, cloudCover }`). -/
structure ForecastEntry where
  condition : Condition
  temperature : ℝ
  windSpeed : ℝ
  cloudCover : ℝ

/-- The `forecast` object with its three horizons. -/
structure Forecast where
  next1h : ForecastEntry
  next6h : ForecastEntry
  next24h : ForecastEntry

/-- A `WeatherData` value.  The `forecast` field is an `Option` because the
tick code guards against it being absent at runtime
(`if (!weatherData.forecast) throw`, source line 437). -/
structure WeatherDataM where
  condition : Condition
  temperature : ℝ
  humidity : ℝ
  windSpeed : ℝ
  cloudCover : ℝ
  uvIndex : ℝ
  visibility : ℝ
  forecast : Option Forecast

/-- The explicit random draws consumed by one call of
`generateRealisticWeatherData`, each in `[0,1)`: the temperature jitter, the
cloud/rain/wind/humidity/visibility draws, and the condition / wind / cloud
draws of the three forecast horizons. -/
structure SynthDraws where
  jitter : ℝ
  cloud : ℝ
  rain : ℝ
  wind : ℝ
  humidity : ℝ
  visibility : ℝ
  fc1 : ℝ
  fc6 : ℝ
  fc24 : ℝ
  fw1 : ℝ
  fw6 : ℝ
  fw24 : ℝ
  fcc1 : ℝ
  fcc6 : ℝ
  fcc24 : ℝ

/-- The forecast condition draw `getConditionForHour` (source lines 168–176);
the hour argument is unused in the source as well. -/
noncomputable def getConditionForHour (season : Season) (_hour : ℕ) (r : ℝ) :
    Condition :=
  match season with
  | .monsoon => if r < 0.4 then .rainy else .cloudy
  | .summer => if r < 0.7 then .sunny else .dusty
  | _ => if r < 0.6 then .sunny else .partly_cloudy

/-- `generateShortTermForecast` (source lines 163–198). -/
noncomputable def generateShortTermForecast (currentHour : ℕ) (season : Season)
    (d : SynthDraws) : Forecast :=
  let baseTemp := getSeasonalBaseTemperature season
  let tempRange := getTemperatureRange season
  { next1h :=
      { condition := getConditionForHour season (currentHour + 1) d.fc1
        temperature :=
          round1 (baseTemp +
            Real.sin (((currentHour : ℝ) + 1 - 6) / 12 * Real.pi) * tempRange)
        windSpeed := round1 (3 + d.fw1 * 5)
        cloudCover := round1 (20 + d.fcc1 * 40) }
    next6h :=
      { condition := getConditionForHour season (currentHour + 6) d.fc6
        temperature :=
          round1 (baseTemp +
            Real.sin (((currentHour : ℝ) + 6 - 6) / 12 * Real.pi) * tempRange)
        windSpeed := round1 (4 + d.fw6 * 6)
        cloudCover := round1 (10 + d.fcc6 * 30) }
    next24h :=
      { condition := getConditionForHour season (currentHour + 24) d.fc24
        temperature := round1 baseTemp
        windSpeed := round1 (3 + d.fw24 * 7)
        cloudCover := round1 (25 + d.fcc24 * 35) } }

/-- `generateRealisticWeatherData(hour)` (source lines 80–143), with the
season and the random draws made explicit. -/
noncomputable def generateRealisticWeatherData (season : Season) (hour : ℕ)
    (d : SynthDraws) : WeatherDataM :=
  let temperature := synthTemperature season (hour : ℝ) d.jitter
  let cloudCover := cloudCoverOf season d.cloud
  let condition := conditionOf season hour cloudCover d.rain
  let windSpeed := windSpeedOf season d.wind
  let humidity := humidityOf season d.humidity
  let uvIndex := uvIndexOf condition hour
  let visibility := visibilityOf condition d.visibility
  { condition := condition
    temperature := round1 temperature
    humidity := round1 humidity
    windSpeed := round1 windSpeed
    cloudCover := round1 cloudCover
    uvIndex := round1 uvIndex
    visibility := round1 visibility
    forecast := some (generateShortTermForecast hour season d) }

/-! ### Efficiency predictor

`predictEnergyEfficiency` (source lines 218–306) and its helpers.  The
fractional power `Math.pow(·, 1.5)` becomes a real `rpow`. -/

/-- `IoTSensorData`. -/
structure IoTSensorDataM where
  panelTemperature : ℝ
  panelTilt : ℝ
  windTurbineRPM : ℝ
  ambientLight : ℝ
  batteryVoltage : ℝ
  inverterEfficiency : ℝ
  loadPowerFactor : ℝ

/-- `EnergyPrediction`. -/
structure EnergyPredictionM where
  solarEfficiency : ℝ
  windEfficiency : ℝ
  loadMultiplier : ℝ
  batteryOptimalCharge : ℝ
  recommendation : Recommendation

/-- The solar-efficiency accumulator of `predictEnergyEfficiency` before the
final clamp (source lines 223–253): cloud, temperature-derating, UV,
visibility and seasonal factors, then the optional IoT adjustments. -/
noncomputable def rawSolarEfficiency (season : Season) (w : WeatherDataM)
    (iot : Option IoTSensorDataM) : ℝ :=
  let e1 := 1.0 * ((100 - w.cloudCover) / 100)
  let e2 := e1 * max 0.7 (1 - max 0 (w.temperature - 25) * 0.004)
  let e3 := e2 * min 1.0 (w.uvIndex / 8)
  let e4 := e3 * min 1.0 (w.visibility / 10)
  let e5 := e4 * solarBoost season
  match iot with
  | none => e5
  | some d =>
      let e6 := if d.panelTemperature > 60 then e5 * 0.9 else e5
      if d.ambientLight < 20000 then e6 * 0.8 else e6

/-- The wind-efficiency value of `predictEnergyEfficiency` before the final
clamp (source lines 256–269): the piecewise power-curve value times the
air-density factor `1 + (25 - temperature) * 0.005`. -/
noncomputable def rawWindEfficiency (w : WeatherDataM) : ℝ :=
  let base :=
    if w.windSpeed < 3 then 0.1
    else if w.windSpeed > 15 then 0.3
    else min 1.0 ((w.windSpeed / 12) ^ 2)
  base * (1 + (25 - w.temperature) * 0.005)

/-- The load multiplier of `predictEnergyEfficiency` before the final clamp
(source lines 272–286). -/
noncomputable def rawLoadMultiplier (season : Season) (w : WeatherDataM) : ℝ :=
  let base :=
    if w.temperature > 30 then
      1 + ((w.temperature - 30) / 10) ^ (1.5 : ℝ) * heatLoad season
    else if w.temperature < 15 then
      1 + (15 - w.temperature) * 0.1 * heatLoad season
    else 1
  if w.humidity > 70 then base * (1 + (w.humidity - 70) * 0.005) else base

/-- The result triple of `calculateSimplifiedEfficiency`. -/
structure SimplifiedEfficiency where
  solarEff : ℝ
  windEff : ℝ
  loadMult : ℝ

/-- `calculateSimplifiedEfficiency` (source lines 352–392): the reduced
forecast-horizon efficiency calculation (cloud/temperature/season only for
solar, no UV/visibility/IoT terms), with the same final clamps. -/
noncomputable def calculateSimplifiedEfficiency (season : Season)
    (fd : ForecastEntry) : SimplifiedEfficiency :=
  let s1 := 1.0 * ((100 - fd.cloudCover) / 100)
  let s2 := s1 * max 0.7 (1 - max 0 (fd.temperature - 25) * 0.004)
  let s3 := s2 * solarBoost season
  let wBase :=
    if fd.windSpeed < 3 then 0.1
    else if fd.windSpeed > 15 then 0.3
    else min 1.0 ((fd.windSpeed / 12) ^ 2)
  let wEff := wBase * (1 + (25 - fd.temperature) * 0.005)
  let lMult :=
    if fd.temperature > 30 then
      1 + ((fd.temperature - 30) / 10) ^ (1.5 : ℝ) * heatLoad season
    else if fd.temperature < 15 then
      1 + (15 - fd.temperature) * 0.1 * heatLoad season
    else 1
  { solarEff := max 0 (min 1 s3)
    windEff := max 0 (min 1 wEff)
    loadMult := max 0.3 (min 2.5 lMult) }

/-- `calculateOptimalBatteryLevel` (source lines 308–349).  The three
efficiency parameters are present but unused in the source too; the
`try`/`catch` body cannot fail in this pure translation, and the missing
forecast guard is the `Option` match. -/
noncomputable def calculateOptimalBatteryLevel (season : Season)
    (w : WeatherDataM) (_solarEff _windEff _loadMult : ℝ) : ℝ :=
  match w.forecast with
  | none => 60
  | some f =>
      let e1 := calculateSimplifiedEfficiency season f.next1h
      let e2 := calculateSimplifiedEfficiency season f.next6h
      let e3 := calculateSimplifiedEfficiency season f.next24h
      let avgFutureGeneration :=
        ((e1.solarEff + e1.windEff) / 2 + (e2.solarEff + e2.windEff) / 2 +
          (e3.solarEff + e3.windEff) / 2) / 3
      let avgFutureLoad := (e1.loadMult + e2.loadMult + e3.loadMult) / 3
      if avgFutureGeneration < 0.4 then
        min 95 (70 + (1 - avgFutureGeneration) * 25)
      else if avgFutureLoad > 1.3 then
        min 90 (60 + (avgFutureLoad - 1) * 30)
      else
        max 40 (min 80 (60 + (avgFutureGeneration - avgFutureLoad) * 20))

/-- `generateActionRecommendation` (source lines 394–418); the weather
parameter is unused in the source body as well. -/
noncomputable def generateActionRecommendation
    (solarEff windEff loadMult : ℝ) (_weather : WeatherDataM) : Recommendation :=
  let totalRenewableEff := (solarEff + windEff) / 2
  if totalRenewableEff > 0.7 ∧ loadMult < 1.2 then .charge_now
  else if totalRenewableEff < 0.3 ∨ loadMult > 1.5 then .prepare_for_peak
  else if totalRenewableEff < loadMult * 0.6 then .discharge_now
  else .maintain

/-- `predictEnergyEfficiency` (source lines 218–306).  The recommendation and
the optimal-charge target are computed from the unclamped accumulator values,
exactly as in the source; the clamps to `[0,1]` / `[0.3,2.5]` are applied in
the returned record as the final step. -/
noncomputable def predictEnergyEfficiency (season : Season) (w : WeatherDataM)
    (iot : Option IoTSensorDataM) : EnergyPredictionM :=
  let solarEfficiency := rawSolarEfficiency season w iot
  let windEfficiency := rawWindEfficiency w
  let loadMultiplier := rawLoadMultiplier season w
  { solarEfficiency := max 0 (min 1 solarEfficiency)
    windEfficiency := max 0 (min 1 windEfficiency)
    loadMultiplier := max 0.3 (min 2.5 loadMultiplier)
    batteryOptimalCharge :=
      calculateOptimalBatteryLevel season w solarEfficiency windEfficiency
        loadMultiplier
    recommendation :=
      generateActionRecommendation solarEfficiency windEfficiency
        loadMultiplier w }

/-! ### Generation/load integrator and the tick entry point

`generateEnhancedEnergyData` (source lines 420–545).  The calls that the
source wraps in `try`/`catch` — weather synthesis and prediction — are passed
in as `Except`-valued inputs so that a thrown exception is representable; the
`catch` branch is the fallback output.  The `timestamp` field (wall clock) and
the offline-mode IoT echo in the output are omitted: no claim concerns them. -/

/-- `getDaytimeFactor` (source lines 547–550). -/
noncomputable def getDaytimeFactor (hour : ℕ) : ℝ :=
  if hour < 6 ∨ hour > 18 then 0
  else Real.sin (((hour : ℝ) - 6) / 12 * Real.pi)

/-- `getLoadPattern` (source lines 552–561). -/
def getLoadPattern (hour : ℕ) : ℝ :=
  if hour < 5 then 0.4
  else if hour < 8 then 0.6
  else if hour < 12 then 0.8
  else if hour < 16 then 1.2
  else if hour < 20 then 1.0
  else if hour < 23 then 0.7
  else 0.5

/-- The `forecast` label of an `EnergyRecord`. -/
inductive ForecastLabel
  | Surplus
  | Deficit
  | Balanced
  deriving DecidableEq

/-- The `energyData` record built by a tick (source lines 475–488), minus the
wall-clock timestamp. -/
structure EnergyRecordM where
  solar_gen_kW : ℝ
  wind_gen_kW : ℝ
  load_demand_kW : ℝ
  battery_soc_percent : ℝ
  grid_import_kW : ℝ
  grid_export_kW : ℝ
  weather : Condition
  forecast : ForecastLabel
  temperature : ℝ
  carbon_saved_kg : ℝ

/-- The non-fallback body of `generateEnhancedEnergyData` (source lines
449–488): nameplate capacities 300/100/200 kW, daytime-gated solar, signed
balance, grid split, battery update, 2-decimal rounding.  Returns the record
and the new stored battery level. -/
noncomputable def happyPathEnergyData (hour : ℕ) (w : WeatherDataM)
    (p : EnergyPredictionM) (level : ℝ) : EnergyRecordM × ℝ :=
  let maxSolarCapacity : ℝ := 300
  let maxWindCapacity : ℝ := 100
  let baseLoad : ℝ := 200
  let solar_gen_kW := maxSolarCapacity * p.solarEfficiency * getDaytimeFactor hour
  let wind_gen_kW := maxWindCapacity * p.windEfficiency
  let load_demand_kW := baseLoad * p.loadMultiplier * getLoadPattern hour
  let totalGeneration := solar_gen_kW + wind_gen_kW
  let energyBalance := totalGeneration - load_demand_kW
  let grid_import_kW := max 0 (-energyBalance)
  let grid_export_kW := max 0 energyBalance
  let battery :=
    calculateBatteryLevel energyBalance p.batteryOptimalCharge
      p.recommendation level
  ({ solar_gen_kW := round2 solar_gen_kW
     wind_gen_kW := round2 wind_gen_kW
     load_demand_kW := round2 load_demand_kW
     battery_soc_percent := round2 battery.2
     grid_import_kW := round2 grid_import_kW
     grid_export_kW := round2 grid_export_kW
     weather := w.condition
     forecast :=
       if energyBalance > 20 then .Surplus
       else if energyBalance < -20 then .Deficit
       else .Balanced
     temperature := w.temperature
     carbon_saved_kg := round2 (totalGeneration * 0.82) }, battery.1)

/-- The fallback `WeatherData` of the `catch` branch (source lines 502–515). -/
def fallbackWeatherData : WeatherDataM :=
  { condition := .sunny
    temperature := 30
    humidity := 50
    windSpeed := 5
    cloudCover := 20
    uvIndex := 6
    visibility := 10
    forecast := some
      { next1h := ⟨.sunny, 30, 5, 20⟩
        next6h := ⟨.sunny, 32, 6, 15⟩
        next24h := ⟨.partly_cloudy, 28, 4, 30⟩ } }

/-- The fallback `EnergyPrediction` of the `catch` branch (source lines
517–523). -/
def fallbackPrediction : EnergyPredictionM :=
  { solarEfficiency := 0.8
    windEfficiency := 0.6
    loadMultiplier := 1.0
    batteryOptimalCharge := 60
    recommendation := .maintain }

/-- The fixed fallback `energyData` record of the `catch` branch (source lines
526–538), minus the timestamp. -/
def fallbackEnergyData : EnergyRecordM :=
  { solar_gen_kW := 200
    wind_gen_kW := 60
    load_demand_kW := 180
    battery_soc_percent := 65
    grid_import_kW := 0
    grid_export_kW := 80
    weather := .sunny
    forecast := .Surplus
    temperature := 30
    carbon_saved_kg := 213.2 }

/-- The value returned by one tick (minus the optional IoT echo). -/
structure TickOutput where
  energyData : EnergyRecordM
  weatherData : WeatherDataM
  prediction : EnergyPredictionM
  mode : String

/-- `generateEnhancedEnergyData` (source lines 420–545).  `weatherResult`
models the weather-synthesis call (`.error` = the call threw),
`predictionResult` models `predictEnergyEfficiency` (`.error` = it threw); a
weather sample without its `forecast` object trips the explicit guard at
source line 437.  All three failure paths land in the `catch` branch, which
returns the fixed fallback output and leaves the stored battery level
untouched.  The function is total: no path propagates an error. -/
noncomputable def generateEnhancedEnergyData (mode : String) (hour : ℕ)
    (weatherResult : Except Unit WeatherDataM)
    (predictionResult : WeatherDataM → Except Unit EnergyPredictionM)
    (level : ℝ) : TickOutput × ℝ :=
  match weatherResult with
  | .error _ =>
      (⟨fallbackEnergyData, fallbackWeatherData, fallbackPrediction, mode⟩, level)
  | .ok w =>
      match w.forecast with
      | none =>
          (⟨fallbackEnergyData, fallbackWeatherData, fallbackPrediction, mode⟩,
            level)
      | some _ =>
          match predictionResult w with
          | .error _ =>
              (⟨fallbackEnergyData, fallbackWeatherData, fallbackPrediction,
                mode⟩, level)
          | .ok p =>
              let r := happyPathEnergyData hour w p level
              (⟨r.1, w, p, mode⟩, r.2)

/-- A concrete weather sample with sub-cut-in wind (2 m/s) and temperature
30 °C, used to exercise the wind-efficiency path of
`predictEnergyEfficiency`. -/
def windSample : WeatherDataM :=
  { condition := .sunny
    temperature := 30
    humidity := 50
    windSpeed := 2
    cloudCover := 20
    uvIndex := 6
    visibility := 10
    forecast := none }

/-! ## Helper lemmas -/

/-- The returned value of a battery update is the `[5,100]`-clamp of the new
stored level. -/
theorem calculateBatteryLevel_snd (b opt lvl : ℚ) (rec : Recommendation) :
    (calculateBatteryLevel b opt rec lvl).2 =
      max 5 (min 100 (calculateBatteryLevel b opt rec lvl).1) := rfl

/-- Rounding zero to two decimals gives zero. -/
theorem round2_zero : round2 0 = 0 := by
  have h : (⌊(0 : ℝ) * 100 + 1 / 2⌋ : ℤ) = 0 := by
    rw [Int.floor_eq_zero_iff, Set.mem_Ico]
    constructor <;> norm_num
  rw [round2, jsRound, h]
  simp

/-- If `x ≤ 0` then `max 0 x` rounds to exactly `0`. -/
theorem round2_nonpos_max (x : ℝ) (h : x ≤ 0) : round2 (max 0 x) = 0 := by
  rw [max_eq_left h, round2_zero]

/-- Of the two grid fields derived from one signed balance, at least one
rounds to exactly `0`, so they are never both strictly positive. -/
theorem round2_grid_exclusive (x : ℝ) :
    round2 (max 0 (-x)) = 0 ∨ round2 (max 0 x) = 0 := by
  rcases le_total x 0 with hx | hx
  · exact Or.inr (round2_nonpos_max x hx)
  · exact Or.inl (round2_nonpos_max (-x) (neg_nonpos.mpr hx))

/-- A `[0,1]` clamp lands in `[0,1]`. -/
theorem clamp01_bounds (x : ℝ) : 0 ≤ max 0 (min 1 x) ∧ max 0 (min 1 x) ≤ 1 :=
  ⟨le_max_left _ _, max_le zero_le_one (min_le_left _ _)⟩

/-- A `[0.3,2.5]` clamp lands in `[0.3,2.5]`. -/
theorem clampLoad_bounds (x : ℝ) :
    (0.3 : ℝ) ≤ max 0.3 (min 2.5 x) ∧ max 0.3 (min 2.5 x) ≤ 2.5 :=
  ⟨le_max_left _ _, max_le (by norm_num) (min_le_left _ _)⟩

/-- All three outputs of the simplified forecast-horizon efficiency
calculation are clamped into their ranges. -/
theorem calculateSimplifiedEfficiency_bounds (season : Season)
    (fd : ForecastEntry) :
    (0 ≤ (calculateSimplifiedEfficiency season fd).solarEff ∧
      (calculateSimplifiedEfficiency season fd).solarEff ≤ 1) ∧
    (0 ≤ (calculateSimplifiedEfficiency season fd).windEff ∧
      (calculateSimplifiedEfficiency season fd).windEff ≤ 1) ∧
    ((0.3 : ℝ) ≤ (calculateSimplifiedEfficiency season fd).loadMult ∧
      (calculateSimplifiedEfficiency season fd).loadMult ≤ 2.5) :=
  ⟨clamp01_bounds _, clamp01_bounds _, clampLoad_bounds _⟩

/-- `calculateOptimalBatteryLevel` always returns a value in `[40,95]`:
the poor-generation branch returns `min 95 (≥ 85)`, the high-load branch
`min 90 (> 69)`, the normal branch a `[40,80]` clamp, and the missing-forecast
default is `60`. -/
theorem calculateOptimalBatteryLevel_range (season : Season) (w : WeatherDataM)
    (s e l : ℝ) :
    40 ≤ calculateOptimalBatteryLevel season w s e l ∧
      calculateOptimalBatteryLevel season w s e l ≤ 95 := by
  rcases hw : w.forecast with _ | f
  · simp only [calculateOptimalBatteryLevel, hw]
    norm_num
  · simp only [calculateOptimalBatteryLevel, hw]
    obtain ⟨⟨s1a, s1b⟩, ⟨w1a, w1b⟩, -⟩ :=
      calculateSimplifiedEfficiency_bounds season f.next1h
    obtain ⟨⟨s2a, s2b⟩, ⟨w2a, w2b⟩, -⟩ :=
      calculateSimplifiedEfficiency_bounds season f.next6h
    obtain ⟨⟨s3a, s3b⟩, ⟨w3a, w3b⟩, -⟩ :=
      calculateSimplifiedEfficiency_bounds season f.next24h
    split_ifs with hg hl
    · refine ⟨le_min (by norm_num) (by linarith), min_le_left _ _⟩
    · exact ⟨le_min (by norm_num) (by linarith),
        le_trans (min_le_left _ _) (by norm_num)⟩
    · exact ⟨le_max_left _ _,
        max_le (by norm_num) (le_trans (min_le_left _ _) (by norm_num))⟩

/-- One battery update from a stored level strictly inside `(18.5, 97)`, with
an optimal target of at most `95`, lands strictly inside `(18.5, 97)` again:
charging branches require `level < optimal ≤ 95` / `< 90` / `< 80` and add at
most `2` / `3` / `1`; discharging branches require `level > 20` / `> 30` and
subtract at most `1.5` / `1`. -/
theorem calculateBatteryLevel_fst_invariant (b opt : ℚ) (rec : Recommendation)
    (lvl : ℚ) (hopt : opt ≤ 95) (hlo : 18.5 < lvl) (hhi : lvl < 97) :
    18.5 < (calculateBatteryLevel b opt rec lvl).1 ∧
      (calculateBatteryLevel b opt rec lvl).1 < 97 := by
  cases rec with
  | charge_now =>
      simp only [calculateBatteryLevel]
      split_ifs with h
      · have h1 : min (2 : ℚ) (b * (1 / 10)) ≤ 2 := min_le_left _ _
        have h2 : 0 < min (2 : ℚ) (b * (1 / 10)) :=
          lt_min (by norm_num) (mul_pos h.1 (by norm_num))
        exact ⟨by linarith, by linarith [h.2]⟩
      · exact ⟨hlo, hhi⟩
  | discharge_now =>
      simp only [calculateBatteryLevel]
      split_ifs with h
      · have h1 : min (3 / 2 : ℚ) (|b| * (5 / 100)) ≤ 3 / 2 := min_le_left _ _
        have h2 : 0 ≤ min (3 / 2 : ℚ) (|b| * (5 / 100)) :=
          le_min (by norm_num) (by positivity)
        exact ⟨by linarith [h.2], by linarith⟩
      · exact ⟨hlo, hhi⟩
  | prepare_for_peak =>
      simp only [calculateBatteryLevel]
      split_ifs with h
      · have h1 : min (2 * (3 / 2) : ℚ) (b * (8 / 100)) ≤ 2 * (3 / 2) :=
          min_le_left _ _
        have h2 : 0 < min (2 * (3 / 2) : ℚ) (b * (8 / 100)) :=
          lt_min (by norm_num) (mul_pos (by linarith [h.1]) (by norm_num))
        exact ⟨by linarith, by linarith [h.2]⟩
      · exact ⟨hlo, hhi⟩
  | maintain =>
      simp only [calculateBatteryLevel]
      split_ifs with h h'
      · have h1 : min (1 : ℚ) (b * (3 / 100)) ≤ 1 := min_le_left _ _
        have h2 : 0 < min (1 : ℚ) (b * (3 / 100)) :=
          lt_min (by norm_num) (mul_pos (by linarith [h.1]) (by norm_num))
        exact ⟨by linarith, by linarith [h.2]⟩
      · have h1 : min (1 : ℚ) (|b| * (2 / 100)) ≤ 1 := min_le_left _ _
        have h2 : 0 ≤ min (1 : ℚ) (|b| * (2 / 100)) :=
          le_min (by norm_num) (by positivity)
        exact ⟨by linarith [h'.2], by linarith⟩
      · exact ⟨hlo, hhi⟩

/-- Folding any sequence of battery updates whose optimal targets are at most
`95` preserves the open interval `(18.5, 97)` for the stored level. -/
theorem foldl_batteryStep_invariant :
    ∀ (inputs : List (ℚ × ℚ × Recommendation)) (lvl : ℚ),
      (∀ u ∈ inputs, u.2.1 ≤ 95) → 18.5 < lvl → lvl < 97 →
      18.5 < inputs.foldl batteryStep lvl ∧ inputs.foldl batteryStep lvl < 97 := by
  intro inputs
  induction inputs with
  | nil => exact fun lvl _ h1 h2 => ⟨h1, h2⟩
  | cons u rest ih =>
      intro lvl hopt h1 h2
      have hu : u.2.1 ≤ 95 := hopt u (List.mem_cons_self u rest)
      have hstep :=
        calculateBatteryLevel_fst_invariant u.1 u.2.1 u.2.2 lvl hu h1 h2
      simp only [List.foldl_cons]
      exact ih (batteryStep lvl u)
        (fun v hv => hopt v (List.mem_cons_of_mem u hv)) hstep.1 hstep.2

/-! ## Claim theorems -/

/-- C1: `calculateBatteryLevel` implements exactly the four-case table of
§4.3 on the stored level — `charge_now` adds `min(2, balance·0.1)` when
`balance > 0` and `level < optimal`, `discharge_now` subtracts
`min(1.5, |balance|·0.05)` when `balance < 0` and `level > 20`,
`prepare_for_peak` adds `min(3, balance·0.08)` when `balance > 10` and
`level < 90`, `maintain` adds `min(1, balance·0.03)` when `balance > 20` and
`level < 80` and subtracts `min(1, |balance|·0.02)` when `balance < −20` and
`level > 30`, and in all other cases the level is unchanged; in particular
`(50, 80, charge_now, 60) ↦ 62` and `(−40, discharge_now, 25) ↦ 23.5`. -/
theorem calculateBatteryLevel_four_case_table :
    (∀ b opt lvl : ℚ, b > 0 → lvl < opt →
      (calculateBatteryLevel b opt .charge_now lvl).1 = lvl + min 2 (b * 0.1)) ∧
    (∀ b opt lvl : ℚ, ¬(b > 0 ∧ lvl < opt) →
      (calculateBatteryLevel b opt .charge_now lvl).1 = lvl) ∧
    (∀ b opt lvl : ℚ, b < 0 → lvl > 20 →
      (calculateBatteryLevel b opt .discharge_now lvl).1 =
        lvl - min 1.5 (|b| * 0.05)) ∧
    (∀ b opt lvl : ℚ, ¬(b < 0 ∧ lvl > 20) →
      (calculateBatteryLevel b opt .discharge_now lvl).1 = lvl) ∧
    (∀ b opt lvl : ℚ, b > 10 → lvl < 90 →
      (calculateBatteryLevel b opt .prepare_for_peak lvl).1 =
        lvl + min 3 (b * 0.08)) ∧
    (∀ b opt lvl : ℚ, ¬(b > 10 ∧ lvl < 90) →
      (calculateBatteryLevel b opt .prepare_for_peak lvl).1 = lvl) ∧
    (∀ b opt lvl : ℚ, b > 20 → lvl < 80 →
      (calculateBatteryLevel b opt .maintain lvl).1 = lvl + min 1 (b * 0.03)) ∧
    (∀ b opt lvl : ℚ, b < -20 → lvl > 30 →
      (calculateBatteryLevel b opt .maintain lvl).1 = lvl - min 1 (|b| * 0.02)) ∧
    (∀ b opt lvl : ℚ, ¬(b > 20 ∧ lvl < 80) → ¬(b < -20 ∧ lvl > 30) →
      (calculateBatteryLevel b opt .maintain lvl).1 = lvl) ∧
    (calculateBatteryLevel (50 : ℚ) 80 .charge_now 60).2 = 62 ∧
    (calculateBatteryLevel (-40 : ℚ) 60 .discharge_now 25).2 = 23.5 := by
  refine ⟨?_, ?_, ?_, ?_, ?_, ?_, ?_, ?_, ?_, ?_, ?_⟩
  · intro b opt lvl hb hl
    simp only [calculateBatteryLevel]
    rw [if_pos ⟨hb, hl⟩]
    norm_num
  · intro b opt lvl h
    simp only [calculateBatteryLevel]
    rw [if_neg h]
  · intro b opt lvl hb hl
    simp only [calculateBatteryLevel]
    rw [if_pos ⟨hb, hl⟩]
    norm_num
  · intro b opt lvl h
    simp only [calculateBatteryLevel]
    rw [if_neg h]
  · intro b opt lvl hb hl
    simp only [calculateBatteryLevel]
    rw [if_pos ⟨hb, hl⟩]
    norm_num
  · intro b opt lvl h
    simp only [calculateBatteryLevel]
    rw [if_neg h]
  · intro b opt lvl hb hl
    simp only [calculateBatteryLevel]
    rw [if_pos ⟨hb, hl⟩]
    norm_num
  · intro b opt lvl hb hl
    simp only [calculateBatteryLevel]
    rw [if_neg (by rintro ⟨h1, -⟩; linarith), if_pos ⟨hb, hl⟩]
    norm_num
  · intro b opt lvl h h'
    simp only [calculateBatteryLevel]
    rw [if_neg h, if_neg h']
  · norm_num [calculateBatteryLevel]
  · norm_num [calculateBatteryLevel]

/-- Witness for C1: the first table case evaluated at the spec's scenario
`balance = 50, optimal = 80, level = 60`. -/
theorem calculateBatteryLevel_four_case_table_witness :
    (50 : ℚ) > 0 ∧ (60 : ℚ) < 80 ∧
      (calculateBatteryLevel (50 : ℚ) 80 .charge_now 60).1 =
        60 + min 2 (50 * 0.1) :=
  ⟨by decide, by decide,
    calculateBatteryLevel_four_case_table.1 50 80 60 (by decide) (by decide)⟩

/-- C3: the value returned by every battery update lies in `[5,100]` whatever
the balance, target and recommendation, and the persistent level is seeded at
`60` (the source field `private batteryLevel = 60` is written by
`calculateBatteryLevel` and by nothing else). -/
theorem calculateBatteryLevel_return_in_range :
    (∀ (b opt lvl : ℚ) (rec : Recommendation),
      5 ≤ (calculateBatteryLevel b opt rec lvl).2 ∧
        (calculateBatteryLevel b opt rec lvl).2 ≤ 100) ∧
    initialBatteryLevel = 60 := by
  refine ⟨fun b opt lvl rec => ?_, rfl⟩
  rw [calculateBatteryLevel_snd]
  exact ⟨le_max_left _ _, max_le (by norm_num) (min_le_left _ _)⟩

/-- C9 counterexample: `setMode` does not reject an invalid mode string — at
runtime it stores `"banana"` verbatim and surfaces nothing to the caller. -/
theorem setMode_accepts_invalid_mode :
    (setMode "banana" none initialSimState).mode = "banana" ∧
      setMode "banana" none initialSimState = ⟨"banana", ""⟩ ∧
      "banana" ≠ "online" ∧ "banana" ≠ "offline" :=
  ⟨rfl, rfl, by decide, by decide⟩

/-- C9 amended: `setMode` performs no runtime validation at all — for every
argument string (valid or not) it returns normally and stores the argument as
the new mode; invalid mode strings are excluded only statically by the
TypeScript `SystemMode` type, and no configuration error is ever surfaced. -/
theorem setMode_no_runtime_validation :
    ∀ (m : String) (k : Option String) (s : SimState),
      (setMode m k s).mode = m :=
  fun _ _ _ => rfl

/-- C10: `calculateOptimalBatteryLevel` always lands in `[40,95]` (default
`60` when the forecast is missing), and starting from the seed `60`, any
finite sequence of battery updates whose optimal targets are at most `95`
keeps the stored level strictly inside `(18.5, 97)`, so the final `[5,100]`
clamp never alters it and the returned value equals the stored field. -/
theorem battery_level_strict_interval :
    (∀ (season : Season) (w : WeatherDataM) (s e l : ℝ),
      40 ≤ calculateOptimalBatteryLevel season w s e l ∧
        calculateOptimalBatteryLevel season w s e l ≤ 95) ∧
    (∀ (season : Season) (w : WeatherDataM) (s e l : ℝ), w.forecast = none →
      calculateOptimalBatteryLevel season w s e l = 60) ∧
    (∀ inputs : List (ℚ × ℚ × Recommendation),
      (∀ u ∈ inputs, u.2.1 ≤ 95) →
      18.5 < runBattery inputs ∧ runBattery inputs < 97 ∧
        max 5 (min 100 (runBattery inputs)) = runBattery inputs) := by
  refine ⟨calculateOptimalBatteryLevel_range, ?_, ?_⟩
  · intro season w s e l hw
    simp [calculateOptimalBatteryLevel, hw]
  · intro inputs hopt
    have h := foldl_batteryStep_invariant inputs initialBatteryLevel hopt
      (by norm_num [initialBatteryLevel]) (by norm_num [initialBatteryLevel])
    rw [show runBattery inputs = inputs.foldl batteryStep initialBatteryLevel
      from rfl]
    refine ⟨h.1, h.2, ?_⟩
    rw [min_eq_right (le_of_lt (lt_trans h.2 (by norm_num)))]
    exact max_eq_right (by linarith [h.1])

/-- Witness for C10: a concrete two-tick sequence (a charge at target 80, a
discharge) run from the seed. -/
theorem battery_level_strict_interval_witness :
    18.5 < runBattery [(50, 80, .charge_now), (-40, 60, .discharge_now)] ∧
      runBattery [(50, 80, .charge_now), (-40, 60, .discharge_now)] < 97 ∧
      max 5 (min 100
          (runBattery [(50, 80, .charge_now), (-40, 60, .discharge_now)])) =
        runBattery [(50, 80, .charge_now), (-40, 60, .discharge_now)] :=
  battery_level_strict_interval.2.2
    [(50, 80, .charge_now), (-40, 60, .discharge_now)] (by decide)

/-- C5: outside daylight hours (`hour < 6` or `hour > 19`), the synthesized
weather sample has condition `clear_night` for every season and every outcome
of the random draws. -/
theorem generateRealisticWeatherData_night_clear :
    ∀ (season : Season) (hour : ℕ) (d : SynthDraws),
      hour < 6 ∨ hour > 19 →
      (generateRealisticWeatherData season hour d).condition = .clear_night := by
  intro season hour d h
  show conditionOf season hour (cloudCoverOf season d.cloud) d.rain =
    .clear_night
  rw [conditionOf, if_pos h]

/-- Witness for C5: hour 22 in winter with all draws at 0. -/
theorem generateRealisticWeatherData_night_clear_witness :
    ((22 : ℕ) < 6 ∨ (22 : ℕ) > 19) ∧
      (generateRealisticWeatherData .winter 22
          ⟨0, 0, 0, 0, 0, 0, 0, 0, 0, 0, 0, 0, 0, 0, 0⟩).condition =
        .clear_night :=
  ⟨Or.inr (by decide),
    generateRealisticWeatherData_night_clear .winter 22 _ (Or.inr (by decide))⟩

/-- C8 counterexample: the deterministic daily temperature component does not
attain its maximum near hour 18 — at hour 18 the sine factor is `sin π = 0`,
so the value is the seasonal base, strictly below the hour-12 value
`base + range` (`sin (π/2) = 1`); shown here for winter. -/
theorem deterministicTemperature_hour18_below_noon :
    deterministicTemperature .winter 18 < deterministicTemperature .winter 12 := by
  have h18 : ((18 : ℝ) - 6) / 12 * Real.pi = Real.pi := by ring
  have h12 : ((12 : ℝ) - 6) / 12 * Real.pi = Real.pi / 2 := by ring
  simp only [deterministicTemperature, dailyVariation,
    getSeasonalBaseTemperature, getTemperatureRange, h18, h12, Real.sin_pi,
    Real.sin_pi_div_two]
  norm_num

/-- C8 amended: for every season the deterministic part
`base + sin((hour−6)/12·π)·range` of the synthesized temperature attains its
maximum at hour 12 (solar noon), not near hour 18, and the random jitter added
on top is bounded by ±1.5 °C. -/
theorem deterministicTemperature_peak_at_noon :
    (∀ (season : Season) (hour : ℝ),
      deterministicTemperature season hour ≤
        deterministicTemperature season 12) ∧
    (∀ (season : Season) (hour r : ℝ), 0 ≤ r → r ≤ 1 →
      |synthTemperature season hour r - deterministicTemperature season hour| ≤
        1.5) := by
  constructor
  · intro season hour
    have h12 : ((12 : ℝ) - 6) / 12 * Real.pi = Real.pi / 2 := by ring
    have hrange : 0 < getTemperatureRange season := by
      cases season <;> norm_num [getTemperatureRange]
    have hsin : Real.sin ((hour - 6) / 12 * Real.pi) ≤ 1 := Real.sin_le_one _
    simp only [deterministicTemperature, dailyVariation, h12,
      Real.sin_pi_div_two]
    nlinarith [hsin, hrange]
  · intro season hour r h0 h1
    simp only [synthTemperature]
    rw [add_sub_cancel_left, abs_le]
    constructor <;> linarith

/-- Witness for C8's amended jitter bound at `r = 0`. -/
theorem deterministicTemperature_peak_at_noon_witness :
    (0 : ℝ) ≤ 0 ∧ (0 : ℝ) ≤ 1 ∧
      |synthTemperature .winter 18 0 - deterministicTemperature .winter 18| ≤
        1.5 :=
  ⟨le_refl 0, zero_le_one,
    deterministicTemperature_peak_at_noon.2 .winter 18 0 (le_refl 0) zero_le_one⟩

/-- C2: every prediction satisfies `solarEfficiency, windEfficiency ∈ [0,1]`
and `loadMultiplier ∈ [0.3,2.5]`, and each is exactly the clamp of the raw
multiplicative accumulator, applied as the final step. -/
theorem predictEnergyEfficiency_clamped :
    ∀ (season : Season) (w : WeatherDataM) (iot : Option IoTSensorDataM),
      (0 ≤ (predictEnergyEfficiency season w iot).solarEfficiency ∧
        (predictEnergyEfficiency season w iot).solarEfficiency ≤ 1) ∧
      (0 ≤ (predictEnergyEfficiency season w iot).windEfficiency ∧
        (predictEnergyEfficiency season w iot).windEfficiency ≤ 1) ∧
      ((0.3 : ℝ) ≤ (predictEnergyEfficiency season w iot).loadMultiplier ∧
        (predictEnergyEfficiency season w iot).loadMultiplier ≤ 2.5) ∧
      (predictEnergyEfficiency season w iot).solarEfficiency =
        max 0 (min 1 (rawSolarEfficiency season w iot)) ∧
      (predictEnergyEfficiency season w iot).windEfficiency =
        max 0 (min 1 (rawWindEfficiency w)) ∧
      (predictEnergyEfficiency season w iot).loadMultiplier =
        max 0.3 (min 2.5 (rawLoadMultiplier season w)) :=
  fun _ _ _ =>
    ⟨clamp01_bounds _, clamp01_bounds _, clampLoad_bounds _, rfl, rfl, rfl⟩

/-- C4 counterexample: at windSpeed 2 m/s and temperature 30 °C the predictor
returns windEfficiency `0.1 · (1 + (25 − 30) · 0.005) = 0.0975`, not exactly
`0.1` — the sub-cut-in floor is still scaled by the air-density factor, so it
is not independent of temperature. -/
theorem windEfficiency_not_fixed_at_low_wind :
    (predictEnergyEfficiency .summer windSample none).windEfficiency = 0.0975 ∧
      (0.0975 : ℝ) ≠ 0.1 := by
  constructor
  · have hraw : rawWindEfficiency windSample = 0.0975 := by
      simp only [rawWindEfficiency, windSample]
      rw [if_pos (by norm_num)]
      norm_num
    show max 0 (min 1 (rawWindEfficiency windSample)) = 0.0975
    rw [hraw, min_eq_right (by norm_num), max_eq_right (by norm_num)]
  · norm_num

/-- C4 amended: for every sample with windSpeed below 3 m/s the returned wind
efficiency is the `[0,1]` clamp of `0.1` scaled by the air-density factor
`1 + (25 − temperature)·0.005` — equal to exactly `0.1` only when the
temperature is 25 °C. -/
theorem windEfficiency_subcutin_formula :
    ∀ (season : Season) (w : WeatherDataM) (iot : Option IoTSensorDataM),
      w.windSpeed < 3 →
      (predictEnergyEfficiency season w iot).windEfficiency =
        max 0 (min 1 (0.1 * (1 + (25 - w.temperature) * 0.005))) := by
  intro season w iot h
  show max 0 (min 1 (rawWindEfficiency w)) = _
  simp only [rawWindEfficiency]
  rw [if_pos h]

/-- Witness for C4's amended statement at the 2 m/s, 30 °C sample. -/
theorem windEfficiency_subcutin_formula_witness :
    windSample.windSpeed < 3 ∧
      (predictEnergyEfficiency .summer windSample none).windEfficiency =
        max 0 (min 1 (0.1 * (1 + (25 - windSample.temperature) * 0.005))) :=
  ⟨by norm_num [windSample],
    windEfficiency_subcutin_formula .summer windSample none
      (by norm_num [windSample])⟩

/-- C6: the tick never propagates a failure — whenever weather synthesis
throws, the weather sample lacks its forecast object, or prediction throws,
`generateEnhancedEnergyData` returns the fixed fallback output (record with
weather sunny, temperature 30, battery 65 %, forecast Surplus, and the default
fallback prediction) and leaves the stored battery level untouched; being a
total function, it returns on every input. -/
theorem generateEnhancedEnergyData_fallback :
    ∀ (mode : String) (hour : ℕ) (wr : Except Unit WeatherDataM)
      (pf : WeatherDataM → Except Unit EnergyPredictionM) (level : ℝ),
      (wr = .error () ∨ (∃ w, wr = .ok w ∧ w.forecast = none) ∨
        (∃ w, wr = .ok w ∧ pf w = .error ())) →
      generateEnhancedEnergyData mode hour wr pf level =
        (⟨fallbackEnergyData, fallbackWeatherData, fallbackPrediction, mode⟩,
          level) := by
  intro mode hour wr pf level h
  rcases h with h | ⟨w, hw, hf⟩ | ⟨w, hw, hp⟩
  · subst h; rfl
  · subst hw
    simp only [generateEnhancedEnergyData, hf]
  · subst hw
    rcases hf : w.forecast with _ | f
    · simp only [generateEnhancedEnergyData, hf]
    · simp only [generateEnhancedEnergyData, hf, hp]

/-- Witness for C6: a tick whose weather synthesis throws returns exactly the
fallback output. -/
theorem generateEnhancedEnergyData_fallback_witness :
    ((Except.error () : Except Unit WeatherDataM) = .error () ∨
      (∃ w, (Except.error () : Except Unit WeatherDataM) = .ok w ∧
        w.forecast = none) ∨
      (∃ w, (Except.error () : Except Unit WeatherDataM) = .ok w ∧
        (fun _ => (Except.error () : Except Unit EnergyPredictionM)) w =
          .error ())) ∧
      generateEnhancedEnergyData "online" 12 (.error ())
          (fun _ => .error ()) 60 =
        (⟨fallbackEnergyData, fallbackWeatherData, fallbackPrediction,
          "online"⟩, 60) :=
  ⟨Or.inl rfl,
    generateEnhancedEnergyData_fallback "online" 12 (.error ())
      (fun _ => .error ()) 60 (Or.inl rfl)⟩

/-- C7: in every record produced by the non-fallback tick body, the
grid import and export fields — `round2 (max 0 (−balance))` and
`round2 (max 0 balance)` of the single signed balance — are never both
strictly positive: at least one of them is exactly `0`, and the 2-decimal
rounding preserves this mutual exclusivity. -/
theorem grid_import_export_exclusive :
    ∀ (hour : ℕ) (w : WeatherDataM) (p : EnergyPredictionM) (level : ℝ),
      (happyPathEnergyData hour w p level).1.grid_import_kW = 0 ∨
        (happyPathEnergyData hour w p level).1.grid_export_kW = 0 := by
  intro hour w p level
  exact round2_grid_exclusive _

end GreenGrid
